import Mathlib

/-!
Verification of the PureInfiniteScroll boundary watcher
(src/src/infinite-scroll.ts), as a shallow embedding.

The watcher observes a scrollable container, raises a boundary event
(ScrolledBottom / ScrolledTop) when the scroll offset comes within a
threshold of a boundary, suppresses re-raising while the kind is pending,
watches the content container for child-list mutations, and on a relevant
insertion clears the pending state and (for Top only) reconciles the
scroll offset.

The embedding is a state machine: the environment supplies the geometry at
each scroll notification and the DOM snapshot plus mutation batch at each
mutation notification; the watcher state mirrors the fields of the class.
DOM nodes are identifiers (Nat) compared by equality, mirroring
isEqualNode.  A MutationObserver handle is an identifier; the per-kind
list of connected observers tracks which observer objects are currently
observing, so that statements about at-most-one-active-observer are about
the observers themselves and not merely about the handle field.
-/

namespace InfiniteScroll

/-- The two boundary event kinds (enum PureInfiniteScrollEvent). -/
inductive Ev where
  | ScrolledBottom
  | ScrolledTop
deriving DecidableEq, Repr

/-- Geometry of the scrollable container at one instant:
scrollTop, scrollHeight, clientHeight. -/
structure Geometry where
  scrollTop : Int
  scrollHeight : Int
  clientHeight : Int
deriving DecidableEq, Repr

/-- Getter isScrolledBottom: scrollHeight - scrollTop - clientHeight <= threshold. -/
def isScrolledBottom (g : Geometry) (threshold : Int) : Bool :=
  decide (g.scrollHeight - g.scrollTop - g.clientHeight ≤ threshold)

/-- Getter isScrolledTop: scrollTop <= threshold. -/
def isScrolledTop (g : Geometry) (threshold : Int) : Bool :=
  decide (g.scrollTop ≤ threshold)

/-- The per-instance fields of the PureInfiniteScroll class.
isWaitingEvents and observerEvents are the two-kind records of the
source; previousScrollHeight / previousScrollTop form the single shared
scroll snapshot. -/
structure WatcherState where
  threshold : Int
  handleEvents : List Ev
  isWaitingBottom : Bool
  isWaitingTop : Bool
  observerBottom : Option Nat
  observerTop : Option Nat
  previousScrollHeight : Int
  previousScrollTop : Int
deriving DecidableEq, Repr

/-- Read isWaitingEvents[e]. -/
def WatcherState.isWaiting (w : WatcherState) : Ev → Bool
  | .ScrolledBottom => w.isWaitingBottom
  | .ScrolledTop => w.isWaitingTop

/-- Write isWaitingEvents[e]. -/
def WatcherState.setWaiting (w : WatcherState) : Ev → Bool → WatcherState
  | .ScrolledBottom, b => { w with isWaitingBottom := b }
  | .ScrolledTop, b => { w with isWaitingTop := b }

/-- Read observerEvents[e]. -/
def WatcherState.observer (w : WatcherState) : Ev → Option Nat
  | .ScrolledBottom => w.observerBottom
  | .ScrolledTop => w.observerTop

/-- Write observerEvents[e]. -/
def WatcherState.setObserver (w : WatcherState) : Ev → Option Nat → WatcherState
  | .ScrolledBottom, o => { w with observerBottom := o }
  | .ScrolledTop, o => { w with observerTop := o }

/-- The watcher state produced by the constructor: threshold defaults to 0,
handleEvents defaults to both kinds, both pending flags false, both
observer handles null, snapshot fields zero. -/
def initWatcher (threshold : Option Int) (handleEvents : Option (List Ev)) :
    WatcherState :=
  { threshold := threshold.getD 0
    handleEvents := handleEvents.getD [.ScrolledBottom, .ScrolledTop]
    isWaitingBottom := false
    isWaitingTop := false
    observerBottom := none
    observerTop := none
    previousScrollHeight := 0
    previousScrollTop := 0 }

/-- Whole-system state: the watcher fields, the container scrollTop
property (writable by reconciliation and by the host), the lists of
currently connected MutationObserver instances per kind, a fresh-id
counter for new observers, and the trace of emitted events. -/
structure SysState where
  watcher : WatcherState
  containerScrollTop : Int
  connectedBottom : List Nat
  connectedTop : List Nat
  nextObserverId : Nat
  emitted : List Ev
deriving DecidableEq, Repr

/-- The connected observers for a kind. -/
def SysState.connected (s : SysState) : Ev → List Nat
  | .ScrolledBottom => s.connectedBottom
  | .ScrolledTop => s.connectedTop

/-- Replace the connected-observer list for a kind. -/
def SysState.setConnected (s : SysState) : Ev → List Nat → SysState
  | .ScrolledBottom, l => { s with connectedBottom := l }
  | .ScrolledTop, l => { s with connectedTop := l }

/-- Initial system state after construction (before any notification). -/
def initSys (threshold : Option Int) (handleEvents : Option (List Ev)) :
    SysState :=
  { watcher := initWatcher threshold handleEvents
    containerScrollTop := 0
    connectedBottom := []
    connectedTop := []
    nextObserverId := 0
    emitted := [] }

/-- A mutation record: the identities of its added nodes. -/
structure MutationRecord where
  addedNodes : List Nat
deriving DecidableEq, Repr

/-- The state of the content container and scrollable container at the
moment a mutation batch is delivered: first child, last child, and the
container scrollHeight read by the reconciliation. -/
structure ContentDom where
  firstChild : Option Nat
  lastChild : Option Nat
  scrollHeight : Int
deriving DecidableEq, Repr

/-- contentContainer.firstChild?.isEqualNode(mutation.addedNodes[0]):
false when there is no first child or no added node. -/
def mutationStart (dom : ContentDom) (m : MutationRecord) : Bool :=
  match dom.firstChild, m.addedNodes.head? with
  | some a, some b => a == b
  | _, _ => false

/-- contentContainer.lastChild?.isEqualNode(addedNodes[length-1]):
false when there is no last child or no added node. -/
def mutationEnd (dom : ContentDom) (m : MutationRecord) : Bool :=
  match dom.lastChild, m.addedNodes.getLast? with
  | some a, some b => a == b
  | _, _ => false

/-- The guard of the observer callback: a record is relevant to Top when
it is a start-insertion and to Bottom when it is an end-insertion. -/
def relevantFor (e : Ev) (dom : ContentDom) (m : MutationRecord) : Bool :=
  (mutationStart dom m && e == .ScrolledTop) ||
    (mutationEnd dom m && e == .ScrolledBottom)

/-- waitForContentChanges: create a fresh MutationObserver, store it in
observerEvents[e], and start observing the content container. -/
def waitForContentChanges (e : Ev) (s : SysState) : SysState :=
  let oid := s.nextObserverId
  let s1 := { s with watcher := s.watcher.setObserver e (some oid)
                     nextObserverId := oid + 1 }
  s1.setConnected e (oid :: s1.connected e)

/-- emitEvent: no-op when the kind is already waiting or is not in
handleEvents; otherwise set the pending flag, snapshot
(scrollHeight, scrollTop), start the content watch, and emit. -/
def emitEvent (g : Geometry) (e : Ev) (s : SysState) : SysState :=
  if s.watcher.isWaiting e || !(s.watcher.handleEvents.contains e) then s
  else
    let w1 := s.watcher.setWaiting e true
    let w2 := { w1 with previousScrollHeight := g.scrollHeight
                        previousScrollTop := g.scrollTop }
    let s2 := waitForContentChanges e { s with watcher := w2 }
    { s2 with emitted := s2.emitted ++ [e] }

/-- The list of events handleScroll will attempt to emit, in order:
ScrolledBottom first when near the bottom, then ScrolledTop when near
the top. -/
def scrollEvents (g : Geometry) (threshold : Int) : List Ev :=
  (if isScrolledBottom g threshold then [Ev.ScrolledBottom] else []) ++
    (if isScrolledTop g threshold then [Ev.ScrolledTop] else [])

/-- handleScroll: evaluate both predicates, then emit each collected
event in order. -/
def handleScroll (g : Geometry) (s : SysState) : SysState :=
  (scrollEvents g s.watcher.threshold).foldl (fun st e => emitEvent g e st) s

/-- handleContentChanges: set
container.scrollTop = previousScrollTop + (scrollHeight - previousScrollHeight). -/
def handleContentChanges (domScrollHeight : Int) (s : SysState) : SysState :=
  { s with containerScrollTop :=
      s.watcher.previousScrollTop +
        (domScrollHeight - s.watcher.previousScrollHeight) }

/-- Disconnect the observer currently stored for the kind (if any) and
null the handle. -/
def disconnectObserver (e : Ev) (s : SysState) : SysState :=
  let s1 := match s.watcher.observer e with
    | some i => s.setConnected e ((s.connected e).erase i)
    | none => s
  { s1 with watcher := s1.watcher.setObserver e none }

/-- The MutationObserver callback for kind e: inspect mutations[0] only;
when it is relevant, disconnect and null the observer, clear the pending
flag, and for Top run the scroll-offset reconciliation.  An empty batch
makes the source throw (mutations[0] is undefined), modelled as none. -/
def observerCallback (e : Ev) (dom : ContentDom)
    (mutations : List MutationRecord) (s : SysState) : Option SysState :=
  match mutations.head? with
  | none => none
  | some mutation =>
    if relevantFor e dom mutation then
      let s1 := disconnectObserver e s
      let s2 := { s1 with watcher := s1.watcher.setWaiting e false }
      some (if e == .ScrolledTop then handleContentChanges dom.scrollHeight s2
            else s2)
    else
      some s

/-- One environment notification: either a scroll event (the host moved
scrollTop and reports the current geometry) or a mutation batch delivered
to the observer of one kind. -/
inductive Action where
  | scroll (g : Geometry)
  | mutate (e : Ev) (dom : ContentDom) (mutations : List MutationRecord)
deriving DecidableEq, Repr

/-- One step of the system.  A mutation batch reaches the callback only
while an observer for that kind is connected; otherwise nothing happens. -/
def step (s : SysState) : Action → Option SysState
  | .scroll g => some (handleScroll g { s with containerScrollTop := g.scrollTop })
  | .mutate e dom mutations =>
    match s.watcher.observer e with
    | some _ => observerCallback e dom mutations s
    | none => some s

/-- Run a list of notifications from a state. -/
def run (s : SysState) : List Action → Option SysState
  | [] => some s
  | a :: rest => (step s a).bind fun s2 => run s2 rest

/-- A state reachable from some freshly constructed watcher by a sequence
of notifications. -/
def Reachable (s : SysState) : Prop :=
  ∃ t evs acts, run (initSys t evs) acts = some s

/-- The boundary predicate selected by a kind. -/
def nearFor : Ev → Geometry → Int → Bool
  | .ScrolledBottom, g, t => isScrolledBottom g t
  | .ScrolledTop, g, t => isScrolledTop g t

/-- The other boundary kind. -/
def otherKind : Ev → Ev
  | .ScrolledBottom => .ScrolledTop
  | .ScrolledTop => .ScrolledBottom

/-- Does an action clear the pending state of kind e: a mutation batch
for e whose first record is relevant to e. -/
def clearsKind (e : Ev) : Action → Bool
  | .scroll _ => false
  | .mutate e2 dom mutations =>
    e2 == e && (match mutations.head? with
      | some m => relevantFor e dom m
      | none => false)

/-- The scroll step as a total function (a scroll notification always
succeeds). -/
def scrollStep (g : Geometry) (s : SysState) : SysState :=
  handleScroll g { s with containerScrollTop := g.scrollTop }

/-- The structural invariant tying the three per-kind resources together:
the connected observers for a kind are exactly the one held in the handle
field, and the pending flag mirrors the handle being non-null. -/
def Inv (s : SysState) : Prop :=
  ∀ e, s.connected e = (s.watcher.observer e).toList ∧
    s.watcher.isWaiting e = (s.watcher.observer e).isSome

/-! ### Projection lemmas for the setters -/

theorem isWaiting_setWaiting (w : WatcherState) (e e2 : Ev) (b : Bool) :
    (w.setWaiting e b).isWaiting e2 = if e2 = e then b else w.isWaiting e2 := by
  cases e <;> cases e2 <;>
    simp [WatcherState.setWaiting, WatcherState.isWaiting]

theorem observer_setObserver (w : WatcherState) (e e2 : Ev) (o : Option Nat) :
    (w.setObserver e o).observer e2 = if e2 = e then o else w.observer e2 := by
  cases e <;> cases e2 <;>
    simp [WatcherState.setObserver, WatcherState.observer]

theorem connected_setConnected (s : SysState) (e e2 : Ev) (l : List Nat) :
    (s.setConnected e l).connected e2 = if e2 = e then l else s.connected e2 := by
  cases e <;> cases e2 <;>
    simp [SysState.setConnected, SysState.connected]

theorem setWaiting_observer (w : WatcherState) (e e2 : Ev) (b : Bool) :
    (w.setWaiting e b).observer e2 = w.observer e2 := by
  cases e <;> cases e2 <;>
    simp [WatcherState.setWaiting, WatcherState.observer]

theorem setObserver_isWaiting (w : WatcherState) (e e2 : Ev) (o : Option Nat) :
    (w.setObserver e o).isWaiting e2 = w.isWaiting e2 := by
  cases e <;> cases e2 <;>
    simp [WatcherState.setObserver, WatcherState.isWaiting]

theorem setConnected_watcher (s : SysState) (e : Ev) (l : List Nat) :
    (s.setConnected e l).watcher = s.watcher := by
  cases e <;> simp [SysState.setConnected]

theorem setConnected_emitted (s : SysState) (e : Ev) (l : List Nat) :
    (s.setConnected e l).emitted = s.emitted := by
  cases e <;> simp [SysState.setConnected]

theorem setConnected_containerScrollTop (s : SysState) (e : Ev) (l : List Nat) :
    (s.setConnected e l).containerScrollTop = s.containerScrollTop := by
  cases e <;> simp [SysState.setConnected]

theorem setWaiting_threshold (w : WatcherState) (e : Ev) (b : Bool) :
    (w.setWaiting e b).threshold = w.threshold := by
  cases e <;> simp [WatcherState.setWaiting]

theorem setWaiting_handleEvents (w : WatcherState) (e : Ev) (b : Bool) :
    (w.setWaiting e b).handleEvents = w.handleEvents := by
  cases e <;> simp [WatcherState.setWaiting]

theorem setObserver_threshold (w : WatcherState) (e : Ev) (o : Option Nat) :
    (w.setObserver e o).threshold = w.threshold := by
  cases e <;> simp [WatcherState.setObserver]

theorem setObserver_handleEvents (w : WatcherState) (e : Ev) (o : Option Nat) :
    (w.setObserver e o).handleEvents = w.handleEvents := by
  cases e <;> simp [WatcherState.setObserver]

theorem setWaiting_prev (w : WatcherState) (e : Ev) (b : Bool) :
    (w.setWaiting e b).previousScrollHeight = w.previousScrollHeight ∧
    (w.setWaiting e b).previousScrollTop = w.previousScrollTop := by
  cases e <;> simp [WatcherState.setWaiting]

theorem setObserver_prev (w : WatcherState) (e : Ev) (o : Option Nat) :
    (w.setObserver e o).previousScrollHeight = w.previousScrollHeight ∧
    (w.setObserver e o).previousScrollTop = w.previousScrollTop := by
  cases e <;> simp [WatcherState.setObserver]

/-! ### emitEvent lemmas -/

theorem emitEvent_noop_waiting (g : Geometry) (e : Ev) (s : SysState)
    (hw : s.watcher.isWaiting e = true) : emitEvent g e s = s := by
  simp [emitEvent, hw]

theorem emitEvent_noop_disabled (g : Geometry) (e : Ev) (s : SysState)
    (he : s.watcher.handleEvents.contains e = false) : emitEvent g e s = s := by
  unfold emitEvent
  split
  · rfl
  · next h => rw [he] at h; simp at h

theorem emitEvent_const (g : Geometry) (e : Ev) (s : SysState) :
    (emitEvent g e s).watcher.threshold = s.watcher.threshold ∧
    (emitEvent g e s).watcher.handleEvents = s.watcher.handleEvents ∧
    (emitEvent g e s).containerScrollTop = s.containerScrollTop := by
  unfold emitEvent
  split
  · simp
  · cases e <;>
      simp [waitForContentChanges, WatcherState.setWaiting,
        WatcherState.setObserver, SysState.setConnected, SysState.connected]

theorem emitEvent_other (g : Geometry) (e e2 : Ev) (s : SysState) (hne : e2 ≠ e) :
    (emitEvent g e s).watcher.isWaiting e2 = s.watcher.isWaiting e2 ∧
    (emitEvent g e s).watcher.observer e2 = s.watcher.observer e2 ∧
    (emitEvent g e s).connected e2 = s.connected e2 ∧
    (emitEvent g e s).emitted.count e2 = s.emitted.count e2 := by
  unfold emitEvent
  split
  · simp
  · cases e <;> cases e2 <;> simp at hne <;>
      simp [waitForContentChanges, WatcherState.setWaiting,
        WatcherState.setObserver, SysState.setConnected, SysState.connected,
        WatcherState.isWaiting, WatcherState.observer,
        List.count_append, List.count_cons, List.count_nil]

theorem emitEvent_fires (g : Geometry) (e : Ev) (s : SysState)
    (hw : s.watcher.isWaiting e = false)
    (he : s.watcher.handleEvents.contains e = true) :
    (emitEvent g e s).emitted = s.emitted ++ [e] ∧
    (emitEvent g e s).watcher.isWaiting e = true ∧
    (emitEvent g e s).watcher.observer e = some s.nextObserverId ∧
    (emitEvent g e s).connected e = s.nextObserverId :: s.connected e ∧
    (emitEvent g e s).watcher.previousScrollHeight = g.scrollHeight ∧
    (emitEvent g e s).watcher.previousScrollTop = g.scrollTop := by
  unfold emitEvent
  rw [if_neg (by rw [hw, he]; simp)]
  cases e <;>
    simp [waitForContentChanges, WatcherState.setWaiting,
      WatcherState.setObserver, SysState.setConnected, SysState.connected,
      WatcherState.isWaiting, WatcherState.observer]

/-! ### handleScroll lemmas -/

theorem foldl_emit_waiting (g : Geometry) (l : List Ev) (e : Ev) (s : SysState)
    (hw : s.watcher.isWaiting e = true) :
    (l.foldl (fun st x => emitEvent g x st) s).watcher.isWaiting e = true ∧
    (l.foldl (fun st x => emitEvent g x st) s).emitted.count e =
      s.emitted.count e := by
  induction l generalizing s with
  | nil => exact ⟨hw, rfl⟩
  | cons x xs ih =>
    rw [List.foldl_cons]
    by_cases hx : x = e
    · subst hx
      rw [emitEvent_noop_waiting g x s hw]
      exact ih s hw
    · obtain ⟨h1, _, _, h4⟩ := emitEvent_other g x e s (Ne.symm hx)
      have hmain := ih (emitEvent g x s) (by rw [h1]; exact hw)
      exact ⟨hmain.1, by rw [hmain.2, h4]⟩

theorem handleScroll_waiting (g : Geometry) (e : Ev) (s : SysState)
    (hw : s.watcher.isWaiting e = true) :
    (handleScroll g s).watcher.isWaiting e = true ∧
    (handleScroll g s).emitted.count e = s.emitted.count e := by
  unfold handleScroll
  exact foldl_emit_waiting g _ e s hw

theorem handleScroll_fires (g : Geometry) (e : Ev) (s : SysState)
    (hnear : nearFor e g s.watcher.threshold = true)
    (hw : s.watcher.isWaiting e = false)
    (he : s.watcher.handleEvents.contains e = true) :
    (handleScroll g s).watcher.isWaiting e = true ∧
    (handleScroll g s).emitted.count e = s.emitted.count e + 1 := by
  unfold handleScroll scrollEvents
  cases e with
  | ScrolledBottom =>
    have hb : isScrolledBottom g s.watcher.threshold = true := hnear
    obtain ⟨f1, f2, _, _, _, _⟩ := emitEvent_fires g .ScrolledBottom s hw he
    have hcount : (emitEvent g .ScrolledBottom s).emitted.count .ScrolledBottom =
        s.emitted.count .ScrolledBottom + 1 := by
      rw [f1]; simp [List.count_append]
    by_cases ht : isScrolledTop g s.watcher.threshold
    · simp only [hb, ht, if_true, List.singleton_append, List.foldl_cons,
        List.foldl_nil]
      obtain ⟨o1, _, _, o4⟩ := emitEvent_other g .ScrolledTop .ScrolledBottom
        (emitEvent g .ScrolledBottom s) (by simp)
      exact ⟨by rw [o1]; exact f2, by rw [o4, hcount]⟩
    · simp only [hb, ht, Bool.false_eq_true, if_true, if_false, List.append_nil,
        List.foldl_cons, List.foldl_nil]
      exact ⟨f2, hcount⟩
  | ScrolledTop =>
    have ht : isScrolledTop g s.watcher.threshold = true := hnear
    by_cases hb : isScrolledBottom g s.watcher.threshold
    · simp only [hb, ht, if_true, List.singleton_append, List.foldl_cons,
        List.foldl_nil]
      obtain ⟨o1, _, _, o4⟩ := emitEvent_other g .ScrolledBottom .ScrolledTop
        s (by simp)
      have hc := emitEvent_const g .ScrolledBottom s
      obtain ⟨f1, f2, _, _, _, _⟩ := emitEvent_fires g .ScrolledTop
        (emitEvent g .ScrolledBottom s) (by rw [o1]; exact hw)
        (by rw [hc.2.1]; exact he)
      refine ⟨f2, ?_⟩
      rw [f1]
      simp [List.count_append, o4]
    · simp only [hb, ht, Bool.false_eq_true, if_true, if_false, List.nil_append,
        List.foldl_cons, List.foldl_nil]
      obtain ⟨f1, f2, _, _, _, _⟩ := emitEvent_fires g .ScrolledTop s hw he
      refine ⟨f2, ?_⟩
      rw [f1]; simp [List.count_append]

/-! ### observerCallback lemmas -/

/-- The state after a relevant first record is handled for kind e. -/
def callbackResult (e : Ev) (dom : ContentDom) (s : SysState) : SysState :=
  let s1 := disconnectObserver e s
  let s2 := { s1 with watcher := s1.watcher.setWaiting e false }
  if e == .ScrolledTop then handleContentChanges dom.scrollHeight s2 else s2

theorem observerCallback_nil (e : Ev) (dom : ContentDom) (s : SysState) :
    observerCallback e dom [] s = none := rfl

theorem observerCallback_irrelevant (e : Ev) (dom : ContentDom)
    (m : MutationRecord) (rest : List MutationRecord) (s : SysState)
    (hrel : relevantFor e dom m = false) :
    observerCallback e dom (m :: rest) s = some s := by
  simp [observerCallback, hrel]

theorem observerCallback_relevant (e : Ev) (dom : ContentDom)
    (m : MutationRecord) (rest : List MutationRecord) (s : SysState)
    (hrel : relevantFor e dom m = true) :
    observerCallback e dom (m :: rest) s = some (callbackResult e dom s) := by
  simp [observerCallback, hrel, callbackResult]

theorem observerCallback_first (e : Ev) (dom : ContentDom) (m : MutationRecord)
    (rest rest2 : List MutationRecord) (s : SysState) :
    observerCallback e dom (m :: rest) s = observerCallback e dom (m :: rest2) s := by
  simp [observerCallback]

theorem callbackResult_self (e : Ev) (dom : ContentDom) (s : SysState) :
    (callbackResult e dom s).watcher.observer e = none ∧
    (callbackResult e dom s).watcher.isWaiting e = false := by
  cases e <;> cases hb : s.watcher.observerBottom <;>
    cases ht : s.watcher.observerTop <;>
    simp [callbackResult, disconnectObserver, handleContentChanges,
      WatcherState.observer, WatcherState.isWaiting, WatcherState.setObserver,
      WatcherState.setWaiting, SysState.setConnected, SysState.connected, hb, ht]

theorem callbackResult_connected_self (e : Ev) (dom : ContentDom) (s : SysState)
    (i : Nat) (hobs : s.watcher.observer e = some i) :
    (callbackResult e dom s).connected e = (s.connected e).erase i := by
  cases e <;> cases hb : s.watcher.observerBottom <;>
    cases ht : s.watcher.observerTop <;>
    simp [WatcherState.observer, hb, ht] at hobs <;>
    simp [callbackResult, disconnectObserver, handleContentChanges,
      WatcherState.observer, WatcherState.setObserver,
      WatcherState.setWaiting, SysState.setConnected, SysState.connected,
      hb, ht, hobs]

theorem callbackResult_other (e e2 : Ev) (dom : ContentDom) (s : SysState)
    (hne : e2 ≠ e) :
    (callbackResult e dom s).watcher.isWaiting e2 = s.watcher.isWaiting e2 ∧
    (callbackResult e dom s).watcher.observer e2 = s.watcher.observer e2 ∧
    (callbackResult e dom s).connected e2 = s.connected e2 := by
  cases e <;> cases e2 <;> simp at hne <;>
    cases hb : s.watcher.observerBottom <;>
    cases ht : s.watcher.observerTop <;>
    simp [callbackResult, disconnectObserver, handleContentChanges,
      WatcherState.observer, WatcherState.isWaiting, WatcherState.setObserver,
      WatcherState.setWaiting, SysState.setConnected, SysState.connected, hb, ht]

theorem callbackResult_const (e : Ev) (dom : ContentDom) (s : SysState) :
    (callbackResult e dom s).emitted = s.emitted ∧
    (callbackResult e dom s).watcher.threshold = s.watcher.threshold ∧
    (callbackResult e dom s).watcher.handleEvents = s.watcher.handleEvents ∧
    (callbackResult e dom s).watcher.previousScrollHeight =
      s.watcher.previousScrollHeight ∧
    (callbackResult e dom s).watcher.previousScrollTop =
      s.watcher.previousScrollTop := by
  cases e <;> cases hb : s.watcher.observerBottom <;>
    cases ht : s.watcher.observerTop <;>
    simp [callbackResult, disconnectObserver, handleContentChanges,
      WatcherState.observer, WatcherState.setObserver,
      WatcherState.setWaiting, SysState.setConnected, SysState.connected, hb, ht]

theorem callbackResult_scrollTop_top (dom : ContentDom) (s : SysState) :
    (callbackResult .ScrolledTop dom s).containerScrollTop =
      s.watcher.previousScrollTop +
        (dom.scrollHeight - s.watcher.previousScrollHeight) := by
  cases ht : s.watcher.observerTop <;>
    simp [callbackResult, disconnectObserver, handleContentChanges,
      WatcherState.observer, WatcherState.setObserver,
      WatcherState.setWaiting, SysState.setConnected, SysState.connected, ht]

theorem callbackResult_scrollTop_bottom (dom : ContentDom) (s : SysState) :
    (callbackResult .ScrolledBottom dom s).containerScrollTop =
      s.containerScrollTop := by
  cases hb : s.watcher.observerBottom <;>
    simp [callbackResult, disconnectObserver, handleContentChanges,
      WatcherState.observer, WatcherState.setObserver,
      WatcherState.setWaiting, SysState.setConnected, SysState.connected, hb]

/-! ### step lemmas -/

theorem step_scroll (s : SysState) (g : Geometry) :
    step s (.scroll g) = some (scrollStep g s) := rfl

theorem step_mutate_none (s : SysState) (e : Ev) (dom : ContentDom)
    (muts : List MutationRecord) (h : s.watcher.observer e = none) :
    step s (.mutate e dom muts) = some s := by
  simp [step, h]

theorem step_mutate_some (s : SysState) (e : Ev) (dom : ContentDom)
    (muts : List MutationRecord) (i : Nat) (h : s.watcher.observer e = some i) :
    step s (.mutate e dom muts) = observerCallback e dom muts s := by
  simp [step, h]

/-! ### The structural invariant is preserved -/

theorem inv_init (t : Option Int) (evs : Option (List Ev)) :
    Inv (initSys t evs) := by
  intro e
  cases e <;>
    simp [initSys, initWatcher, SysState.connected, WatcherState.observer,
      WatcherState.isWaiting]

theorem waiting_false_observer_none (s : SysState) (e : Ev) (hi : Inv s)
    (hw : s.watcher.isWaiting e = false) : s.watcher.observer e = none := by
  have h2 := (hi e).2
  rw [hw] at h2
  cases hx : s.watcher.observer e with
  | none => rfl
  | some i => rw [hx] at h2; simp at h2

theorem inv_emit (g : Geometry) (e : Ev) (s : SysState) (hi : Inv s) :
    Inv (emitEvent g e s) := by
  by_cases hw : s.watcher.isWaiting e = true
  · rw [emitEvent_noop_waiting g e s hw]; exact hi
  · by_cases he : s.watcher.handleEvents.contains e = true
    · have hw2 : s.watcher.isWaiting e = false := by
        cases hx : s.watcher.isWaiting e
        · rfl
        · exact absurd hx hw
      intro e2
      by_cases h2 : e2 = e
      · subst h2
        obtain ⟨_, f2, f3, f4, _, _⟩ := emitEvent_fires g e2 s hw2 he
        have hobs := waiting_false_observer_none s e2 hi hw2
        have hconn : s.connected e2 = [] := by
          rw [(hi e2).1, hobs]; rfl
        rw [f2, f3, f4, hconn]
        simp
      · obtain ⟨o1, o2, o3, _⟩ := emitEvent_other g e e2 s h2
        exact ⟨by rw [o3, o2]; exact (hi e2).1, by rw [o1, o2]; exact (hi e2).2⟩
    · rw [emitEvent_noop_disabled g e s (by
        cases hx : s.watcher.handleEvents.contains e
        · rfl
        · exact absurd hx he)]
      exact hi

theorem inv_foldl_emit (g : Geometry) (l : List Ev) (s : SysState) (hi : Inv s) :
    Inv (l.foldl (fun st x => emitEvent g x st) s) := by
  induction l generalizing s with
  | nil => exact hi
  | cons x xs ih => rw [List.foldl_cons]; exact ih _ (inv_emit g x s hi)

theorem inv_scrollTop_update (s : SysState) (x : Int) (hi : Inv s) :
    Inv { s with containerScrollTop := x } := by
  intro e
  have h := hi e
  cases e <;>
    (simp only [SysState.connected, WatcherState.observer,
      WatcherState.isWaiting] at h ⊢; exact h)

theorem inv_scrollStep (g : Geometry) (s : SysState) (hi : Inv s) :
    Inv (scrollStep g s) := by
  unfold scrollStep handleScroll
  exact inv_foldl_emit g _ _ (inv_scrollTop_update s _ hi)

theorem inv_callback (e : Ev) (dom : ContentDom) (muts : List MutationRecord)
    (s s2 : SysState) (hi : Inv s)
    (hcb : observerCallback e dom muts s = some s2) : Inv s2 := by
  cases muts with
  | nil => rw [observerCallback_nil] at hcb; cases hcb
  | cons m rest =>
    by_cases hrel : relevantFor e dom m = true
    · rw [observerCallback_relevant e dom m rest s hrel] at hcb
      cases hcb
      intro e2
      by_cases h2 : e2 = e
      · subst h2
        obtain ⟨c1, c2⟩ := callbackResult_self e2 dom s
        refine ⟨?_, by rw [c1, c2]; rfl⟩
        rw [c1]
        cases hobs : s.watcher.observer e2 with
        | none =>
          have hconn : s.connected e2 = [] := by rw [(hi e2).1, hobs]; rfl
          cases he2 : e2 <;>
            simp_all [callbackResult, disconnectObserver, handleContentChanges,
              WatcherState.observer, WatcherState.setObserver,
              WatcherState.setWaiting, SysState.setConnected,
              SysState.connected]
        | some i =>
          rw [callbackResult_connected_self e2 dom s i hobs,
            (hi e2).1, hobs]
          simp [List.erase_cons]
      · obtain ⟨o1, o2, o3⟩ := callbackResult_other e e2 dom s h2
        exact ⟨by rw [o3, o2]; exact (hi e2).1, by rw [o1, o2]; exact (hi e2).2⟩
    · have hrel2 : relevantFor e dom m = false := by
        cases hx : relevantFor e dom m
        · rfl
        · exact absurd hx hrel
      rw [observerCallback_irrelevant e dom m rest s hrel2] at hcb
      cases hcb
      exact hi

theorem inv_step (s s2 : SysState) (a : Action) (hi : Inv s)
    (hstep : step s a = some s2) : Inv s2 := by
  cases a with
  | scroll g =>
    rw [step_scroll] at hstep
    cases hstep
    exact inv_scrollStep g s hi
  | mutate e dom muts =>
    cases hobs : s.watcher.observer e with
    | none =>
      rw [step_mutate_none s e dom muts hobs] at hstep
      cases hstep
      exact hi
    | some i =>
      rw [step_mutate_some s e dom muts i hobs] at hstep
      exact inv_callback e dom muts s s2 hi hstep

theorem inv_run (s s2 : SysState) (acts : List Action) (hi : Inv s)
    (hrun : run s acts = some s2) : Inv s2 := by
  induction acts generalizing s with
  | nil => cases hrun; exact hi
  | cons a rest ih =>
    rw [run] at hrun
    cases hstep : step s a with
    | none => rw [hstep] at hrun; cases hrun
    | some s1 =>
      rw [hstep] at hrun
      exact ih s1 (inv_step s s1 a hi hstep) hrun

theorem reachable_inv (s : SysState) (h : Reachable s) : Inv s := by
  obtain ⟨t, evs, acts, hrun⟩ := h
  exact inv_run _ s acts (inv_init t evs) hrun

/-! ### A pending kind stays pending and silent until a relevant mutation -/

theorem step_waiting_frozen (s s2 : SysState) (e : Ev) (a : Action)
    (hw : s.watcher.isWaiting e = true)
    (hna : clearsKind e a = false)
    (hstep : step s a = some s2) :
    s2.watcher.isWaiting e = true ∧ s2.emitted.count e = s.emitted.count e := by
  cases a with
  | scroll g =>
    rw [step_scroll] at hstep
    cases hstep
    exact handleScroll_waiting g e { s with containerScrollTop := g.scrollTop } hw
  | mutate e2 dom muts =>
    cases hobs : s.watcher.observer e2 with
    | none =>
      rw [step_mutate_none s e2 dom muts hobs] at hstep
      cases hstep
      exact ⟨hw, rfl⟩
    | some i =>
      rw [step_mutate_some s e2 dom muts i hobs] at hstep
      cases muts with
      | nil => rw [observerCallback_nil] at hstep; cases hstep
      | cons m rest =>
        by_cases hrel : relevantFor e2 dom m = true
        · have hne : e ≠ e2 := by
            intro hEq
            subst hEq
            simp [clearsKind, hrel] at hna
          rw [observerCallback_relevant e2 dom m rest s hrel] at hstep
          cases hstep
          obtain ⟨o1, _, _⟩ := callbackResult_other e2 e dom s hne
          obtain ⟨c1, _⟩ := callbackResult_const e2 dom s
          exact ⟨by rw [o1]; exact hw, by rw [c1]⟩
        · have hrel2 : relevantFor e2 dom m = false := by
            cases hx : relevantFor e2 dom m
            · rfl
            · exact absurd hx hrel
          rw [observerCallback_irrelevant e2 dom m rest s hrel2] at hstep
          cases hstep
          exact ⟨hw, rfl⟩

theorem run_waiting_frozen (s s2 : SysState) (e : Ev) (acts : List Action)
    (hw : s.watcher.isWaiting e = true)
    (hna : ∀ a ∈ acts, clearsKind e a = false)
    (hrun : run s acts = some s2) :
    s2.watcher.isWaiting e = true ∧ s2.emitted.count e = s.emitted.count e := by
  induction acts generalizing s with
  | nil => cases hrun; exact ⟨hw, rfl⟩
  | cons a rest ih =>
    rw [run] at hrun
    cases hstep : step s a with
    | none => rw [hstep] at hrun; cases hrun
    | some s1 =>
      rw [hstep] at hrun
      obtain ⟨h1, h2⟩ := step_waiting_frozen s s1 e a hw
        (hna a (List.mem_cons_self a rest)) hstep
      obtain ⟨h3, h4⟩ := ih s1 h1 (fun x hx => hna x (List.mem_cons_of_mem a hx)) hrun
      exact ⟨h3, by rw [h4, h2]⟩

theorem scrollStep_iterate_waiting (g : Geometry) (e : Ev) (n : Nat)
    (s : SysState) (hw : s.watcher.isWaiting e = true) :
    ((scrollStep g)^[n] s).watcher.isWaiting e = true ∧
    ((scrollStep g)^[n] s).emitted.count e = s.emitted.count e := by
  induction n generalizing s with
  | zero => exact ⟨hw, rfl⟩
  | succ k ih =>
    rw [Function.iterate_succ_apply]
    have h1 := handleScroll_waiting g e { s with containerScrollTop := g.scrollTop } hw
    obtain ⟨h2, h3⟩ := ih (scrollStep g s) h1.1
    exact ⟨h2, by rw [h3]; exact h1.2⟩

/-! ### A disabled kind is never emitted -/

theorem foldl_emit_const (g : Geometry) (l : List Ev) (s : SysState) :
    (l.foldl (fun st x => emitEvent g x st) s).watcher.threshold =
      s.watcher.threshold ∧
    (l.foldl (fun st x => emitEvent g x st) s).watcher.handleEvents =
      s.watcher.handleEvents := by
  induction l generalizing s with
  | nil => exact ⟨rfl, rfl⟩
  | cons x xs ih =>
    rw [List.foldl_cons]
    obtain ⟨c1, c2, _⟩ := emitEvent_const g x s
    obtain ⟨i1, i2⟩ := ih (emitEvent g x s)
    exact ⟨i1.trans c1, i2.trans c2⟩

theorem foldl_emit_count_disabled (g : Geometry) (l : List Ev) (e : Ev)
    (s : SysState) (he : s.watcher.handleEvents.contains e = false) :
    (l.foldl (fun st x => emitEvent g x st) s).emitted.count e =
      s.emitted.count e := by
  induction l generalizing s with
  | nil => rfl
  | cons x xs ih =>
    rw [List.foldl_cons]
    by_cases hx : x = e
    · subst hx
      rw [emitEvent_noop_disabled g x s he]
      exact ih s he
    · have he2 : (emitEvent g x s).watcher.handleEvents.contains e = false := by
        rw [(emitEvent_const g x s).2.1]; exact he
      rw [ih (emitEvent g x s) he2, (emitEvent_other g x e s (Ne.symm hx)).2.2.2]

theorem observerCallback_frozen (e : Ev) (dom : ContentDom)
    (muts : List MutationRecord) (s s2 : SysState)
    (hcb : observerCallback e dom muts s = some s2) :
    s2.emitted = s.emitted ∧ s2.watcher.threshold = s.watcher.threshold ∧
    s2.watcher.handleEvents = s.watcher.handleEvents := by
  cases muts with
  | nil => rw [observerCallback_nil] at hcb; cases hcb
  | cons m rest =>
    by_cases hrel : relevantFor e dom m = true
    · rw [observerCallback_relevant e dom m rest s hrel] at hcb
      cases hcb
      obtain ⟨c1, c2, c3, _, _⟩ := callbackResult_const e dom s
      exact ⟨c1, c2, c3⟩
    · have hrel2 : relevantFor e dom m = false := by
        cases hx : relevantFor e dom m
        · rfl
        · exact absurd hx hrel
      rw [observerCallback_irrelevant e dom m rest s hrel2] at hcb
      cases hcb
      exact ⟨rfl, rfl, rfl⟩

theorem step_const (s s2 : SysState) (a : Action)
    (hstep : step s a = some s2) :
    s2.watcher.threshold = s.watcher.threshold ∧
    s2.watcher.handleEvents = s.watcher.handleEvents := by
  cases a with
  | scroll g =>
    rw [step_scroll] at hstep
    cases hstep
    exact foldl_emit_const g _ _
  | mutate e dom muts =>
    cases hobs : s.watcher.observer e with
    | none =>
      rw [step_mutate_none s e dom muts hobs] at hstep
      cases hstep
      exact ⟨rfl, rfl⟩
    | some i =>
      rw [step_mutate_some s e dom muts i hobs] at hstep
      exact (observerCallback_frozen e dom muts s s2 hstep).2

theorem step_count_disabled (s s2 : SysState) (e : Ev) (a : Action)
    (he : s.watcher.handleEvents.contains e = false)
    (hstep : step s a = some s2) :
    s2.emitted.count e = s.emitted.count e := by
  cases a with
  | scroll g =>
    rw [step_scroll] at hstep
    cases hstep
    exact foldl_emit_count_disabled g _ e _ he
  | mutate e2 dom muts =>
    cases hobs : s.watcher.observer e2 with
    | none =>
      rw [step_mutate_none s e2 dom muts hobs] at hstep
      cases hstep
      rfl
    | some i =>
      rw [step_mutate_some s e2 dom muts i hobs] at hstep
      rw [(observerCallback_frozen e2 dom muts s s2 hstep).1]

theorem run_count_disabled (s s2 : SysState) (e : Ev) (acts : List Action)
    (he : s.watcher.handleEvents.contains e = false)
    (hrun : run s acts = some s2) :
    s2.emitted.count e = s.emitted.count e := by
  induction acts generalizing s with
  | nil => cases hrun; rfl
  | cons a rest ih =>
    rw [run] at hrun
    cases hstep : step s a with
    | none => rw [hstep] at hrun; cases hrun
    | some s1 =>
      rw [hstep] at hrun
      have he1 : s1.watcher.handleEvents.contains e = false := by
        rw [(step_const s s1 a hstep).2]; exact he
      rw [ih s1 he1 hrun, step_count_disabled s s1 e a he hstep]

/-! ## The claims -/

/-- Claim C1: for every container geometry and threshold, isScrolledBottom is
true iff scrollHeight - scrollTop - clientHeight ≤ threshold, and isScrolledTop
is true iff scrollTop ≤ threshold; with threshold 0, scrollTop = 0 makes
isScrolledTop true and any scrollTop > 0 makes it false (the comparison is ≤,
not <). -/
theorem isScrolled_predicates (g : Geometry) (t : Int) :
    (isScrolledBottom g t = true ↔
      g.scrollHeight - g.scrollTop - g.clientHeight ≤ t) ∧
    (isScrolledTop g t = true ↔ g.scrollTop ≤ t) ∧
    (g.scrollTop = 0 → isScrolledTop g 0 = true) ∧
    (0 < g.scrollTop → isScrolledTop g 0 = false) := by
  refine ⟨?_, ?_, ?_, ?_⟩
  · simp [isScrolledBottom]
  · simp [isScrolledTop]
  · intro h; simp [isScrolledTop, h]
  · intro h; simp [isScrolledTop]; omega

/-- Claim C1 witness: concrete geometries on both sides of each boundary. -/
theorem isScrolled_predicates_witness :
    isScrolledBottom ⟨750, 1000, 200⟩ 50 = true ∧
    isScrolledTop ⟨0, 1000, 200⟩ 0 = true ∧
    isScrolledTop ⟨1, 1000, 200⟩ 0 = false :=
  ⟨(isScrolled_predicates ⟨750, 1000, 200⟩ 50).1.mpr (by decide),
   (isScrolled_predicates ⟨0, 1000, 200⟩ 0).2.2.1 rfl,
   (isScrolled_predicates ⟨1, 1000, 200⟩ 0).2.2.2 (by decide)⟩

/-- Claim C2: while a kind is pending, any sequence of notifications containing
no relevant mutation for that kind leaves it pending and emits no further event
of that kind; and from an idle enabled kind, n+1 repeated scroll notifications
at one near-boundary position emit the event exactly once. -/
theorem boundary_event_once_per_episode :
    (∀ (s s2 : SysState) (e : Ev) (acts : List Action),
        s.watcher.isWaiting e = true →
        (∀ a ∈ acts, clearsKind e a = false) →
        run s acts = some s2 →
        s2.watcher.isWaiting e = true ∧
          s2.emitted.count e = s.emitted.count e) ∧
    (∀ (g : Geometry) (e : Ev) (s : SysState) (n : Nat),
        nearFor e g s.watcher.threshold = true →
        s.watcher.isWaiting e = false →
        s.watcher.handleEvents.contains e = true →
        ((scrollStep g)^[n + 1] s).emitted.count e = s.emitted.count e + 1) := by
  refine ⟨fun s s2 e acts hw hna hrun => run_waiting_frozen s s2 e acts hw hna hrun, ?_⟩
  intro g e s n hnear hw he
  rw [Function.iterate_succ_apply]
  have h1 := handleScroll_fires g e { s with containerScrollTop := g.scrollTop }
    hnear hw he
  obtain ⟨_, h3⟩ := scrollStep_iterate_waiting g e n (scrollStep g s) h1.1
  rw [h3]
  exact h1.2

/-- Claim C2 witness: two scroll notifications at the bottom boundary emit
ScrolledBottom exactly once. -/
theorem boundary_event_once_per_episode_witness :
    ((scrollStep ⟨750, 1000, 200⟩)^[2] (initSys (some 50) none)).emitted.count
      .ScrolledBottom = 1 :=
  boundary_event_once_per_episode.2 ⟨750, 1000, 200⟩ .ScrolledBottom
    (initSys (some 50) none) 1 (by decide) rfl (by decide)

/-- Claim C3 counterexample: the scroll snapshot is shared between kinds, so an
event raised between the Top raise and the start-insertion replaces the Top
baseline.  Raise Top with baseline (scrollHeight 1000, scrollTop 100); raise
Bottom at scrollTop 750 before the prepend is detected; the relevant
start-insertion at scrollHeight 1200 then reconciles scrollTop to
750 + 200 = 950, not to 100 + 200 = 300 as the claim requires. -/
theorem reconciliation_baseline_counterexample :
    (run (initSys (some 100) none)
        [Action.scroll ⟨100, 1000, 200⟩,
         Action.scroll ⟨750, 1000, 200⟩,
         Action.mutate .ScrolledTop ⟨some 5, some 9, 1200⟩ [⟨[5]⟩]]).map
      SysState.containerScrollTop = some 950 ∧
    (run (initSys (some 100) none)
        [Action.scroll ⟨100, 1000, 200⟩,
         Action.scroll ⟨750, 1000, 200⟩,
         Action.mutate .ScrolledTop ⟨some 5, some 9, 1200⟩ [⟨[5]⟩]]).map
      SysState.containerScrollTop ≠ some 300 := by
  refine ⟨by decide, ?_⟩
  intro h
  rw [show (run (initSys (some 100) none)
        [Action.scroll ⟨100, 1000, 200⟩,
         Action.scroll ⟨750, 1000, 200⟩,
         Action.mutate .ScrolledTop ⟨some 5, some 9, 1200⟩ [⟨[5]⟩]]).map
      SysState.containerScrollTop = some 950 from by decide] at h
  cases h

/-- Claim C3 amended: a raise snapshots (scrollHeight, scrollTop) at that
moment into the single shared baseline; when a relevant start-insertion is
detected for Top, scrollTop is set to previousScrollTop +
(currentScrollHeight - previousScrollHeight) using the baseline of the MOST
RECENT raise of either kind, so the Top-raise values are used exactly when no
other event was raised in between; in that case baseline (1000, 100) and new
scrollHeight 1200 yield 300. -/
theorem reconciliation_uses_latest_snapshot :
    (∀ (g : Geometry) (e : Ev) (s : SysState),
        s.watcher.isWaiting e = false →
        s.watcher.handleEvents.contains e = true →
        (emitEvent g e s).watcher.previousScrollHeight = g.scrollHeight ∧
        (emitEvent g e s).watcher.previousScrollTop = g.scrollTop) ∧
    (∀ (s s2 : SysState) (dom : ContentDom) (m : MutationRecord)
        (rest : List MutationRecord) (i : Nat),
        s.watcher.observerTop = some i →
        relevantFor .ScrolledTop dom m = true →
        step s (.mutate .ScrolledTop dom (m :: rest)) = some s2 →
        s2.containerScrollTop =
          s.watcher.previousScrollTop +
            (dom.scrollHeight - s.watcher.previousScrollHeight)) ∧
    (run (initSys (some 100) none)
        [Action.scroll ⟨100, 1000, 200⟩,
         Action.mutate .ScrolledTop ⟨some 5, some 9, 1200⟩ [⟨[5]⟩]]).map
      SysState.containerScrollTop = some 300 := by
  refine ⟨?_, ?_, by decide⟩
  · intro g e s hw he
    obtain ⟨_, _, _, _, f5, f6⟩ := emitEvent_fires g e s hw he
    exact ⟨f5, f6⟩
  · intro s s2 dom m rest i hobs hrel hstep
    rw [step_mutate_some s .ScrolledTop dom _ i hobs] at hstep
    rw [observerCallback_relevant .ScrolledTop dom m rest s hrel] at hstep
    cases hstep
    exact callbackResult_scrollTop_top dom s

/-- Claim C3 amended witness: a Top raise at (scrollTop 100, scrollHeight 1000)
followed directly by a relevant start-insertion at scrollHeight 1200
reconciles scrollTop to 300. -/
theorem reconciliation_uses_latest_snapshot_witness :
    ((step (emitEvent ⟨100, 1000, 200⟩ .ScrolledTop (initSys (some 100) none))
        (.mutate .ScrolledTop ⟨some 5, some 9, 1200⟩ [⟨[5]⟩])).getD
        (initSys (some 100) none)).containerScrollTop = 300 :=
  reconciliation_uses_latest_snapshot.2.1
    (emitEvent ⟨100, 1000, 200⟩ .ScrolledTop (initSys (some 100) none)) _
    ⟨some 5, some 9, 1200⟩ ⟨[5]⟩ [] 0 rfl (by decide) rfl

/-- Claim C4: in every reachable state each kind has at most one connected
content observer, and the pending flag is true iff the observer handle is
non-null; a relevant mutation delivered to the observer of a kind disconnects and
nulls it and clears the pending flag, while an irrelevant mutation changes
nothing at all. -/
theorem observer_invariant :
    (∀ s : SysState, Reachable s → ∀ e : Ev,
        (s.connected e).length ≤ 1 ∧
        s.watcher.isWaiting e = (s.watcher.observer e).isSome) ∧
    (∀ (s s2 : SysState) (e : Ev) (dom : ContentDom) (m : MutationRecord)
        (rest : List MutationRecord) (i : Nat), Reachable s →
        s.watcher.observer e = some i →
        relevantFor e dom m = true →
        step s (.mutate e dom (m :: rest)) = some s2 →
        s2.watcher.observer e = none ∧ s2.connected e = [] ∧
          s2.watcher.isWaiting e = false) ∧
    (∀ (s s2 : SysState) (e : Ev) (dom : ContentDom) (m : MutationRecord)
        (rest : List MutationRecord),
        relevantFor e dom m = false →
        step s (.mutate e dom (m :: rest)) = some s2 → s2 = s) := by
  refine ⟨?_, ?_, ?_⟩
  · intro s hr e
    have hi := reachable_inv s hr
    refine ⟨?_, (hi e).2⟩
    rw [(hi e).1]
    cases s.watcher.observer e <;> simp
  · intro s s2 e dom m rest i hr hobs hrel hstep
    have hi := reachable_inv s hr
    rw [step_mutate_some s e dom _ i hobs] at hstep
    rw [observerCallback_relevant e dom m rest s hrel] at hstep
    cases hstep
    obtain ⟨c1, c2⟩ := callbackResult_self e dom s
    refine ⟨c1, ?_, c2⟩
    rw [callbackResult_connected_self e dom s i hobs, (hi e).1, hobs]
    simp [List.erase_cons]
  · intro s s2 e dom m rest hrel hstep
    cases hobs : s.watcher.observer e with
    | none =>
      rw [step_mutate_none s e dom _ hobs] at hstep
      cases hstep
      rfl
    | some i =>
      rw [step_mutate_some s e dom _ i hobs] at hstep
      rw [observerCallback_irrelevant e dom m rest s hrel] at hstep
      cases hstep
      rfl

/-- Claim C4 witness: the invariant at the freshly constructed state, and the
relevant-mutation clause after one Bottom raise. -/
theorem observer_invariant_witness :
    (((initSys none none).connected .ScrolledBottom).length ≤ 1 ∧
      (initSys none none).watcher.isWaiting .ScrolledBottom =
        ((initSys none none).watcher.observer .ScrolledBottom).isSome) ∧
    (((step (scrollStep ⟨800, 1000, 200⟩ (initSys none none))
        (.mutate .ScrolledBottom ⟨some 1, some 7, 1200⟩ [⟨[7]⟩])).getD
        (initSys none none)).watcher.observer .ScrolledBottom = none ∧
      ((step (scrollStep ⟨800, 1000, 200⟩ (initSys none none))
        (.mutate .ScrolledBottom ⟨some 1, some 7, 1200⟩ [⟨[7]⟩])).getD
        (initSys none none)).connected .ScrolledBottom = [] ∧
      ((step (scrollStep ⟨800, 1000, 200⟩ (initSys none none))
        (.mutate .ScrolledBottom ⟨some 1, some 7, 1200⟩ [⟨[7]⟩])).getD
        (initSys none none)).watcher.isWaiting .ScrolledBottom = false) :=
  ⟨observer_invariant.1 (initSys none none) ⟨none, none, [], rfl⟩ .ScrolledBottom,
   observer_invariant.2.1
    (scrollStep ⟨800, 1000, 200⟩ (initSys none none)) _
    .ScrolledBottom ⟨some 1, some 7, 1200⟩ ⟨[7]⟩ [] 0
    ⟨none, none, [.scroll ⟨800, 1000, 200⟩], by decide⟩ (by decide) (by decide) rfl⟩

/-- Claim C5 counterexample: at the example geometry of the claim (scrollTop
750, scrollHeight 1000, clientHeight 200, threshold 50) the top boundary is not
near - isScrolledTop is false - so that scroll pass emits only ScrolledBottom
and no ordered Bottom-then-Top pair exists at that input. -/
theorem bottom_top_order_counterexample :
    isScrolledTop ⟨750, 1000, 200⟩ 50 = false ∧
    (handleScroll ⟨750, 1000, 200⟩ (initSys (some 50) none)).emitted =
      [Ev.ScrolledBottom] := by
  decide

/-- Claim C5 amended: on a single scroll notification in which both
isScrolledBottom and isScrolledTop are true (possible only when scrollHeight ≤
clientHeight + 2·threshold, e.g. clientHeight 200, scrollHeight 240, threshold
50, scrollTop 20 - not the geometry the claim lists), with both kinds enabled
and idle, ScrolledBottom is emitted before ScrolledTop in the same pass. -/
theorem bottom_before_top (s : SysState) (g : Geometry)
    (hb : isScrolledBottom g s.watcher.threshold = true)
    (ht : isScrolledTop g s.watcher.threshold = true)
    (hwb : s.watcher.isWaitingBottom = false)
    (hwt : s.watcher.isWaitingTop = false)
    (heb : s.watcher.handleEvents.contains .ScrolledBottom = true)
    (het : s.watcher.handleEvents.contains .ScrolledTop = true) :
    (handleScroll g s).emitted =
      s.emitted ++ [Ev.ScrolledBottom, Ev.ScrolledTop] := by
  unfold handleScroll scrollEvents
  simp only [hb, ht, if_true, List.singleton_append, List.foldl_cons,
    List.foldl_nil]
  obtain ⟨f1, _, _, _, _, _⟩ := emitEvent_fires g .ScrolledBottom s hwb heb
  obtain ⟨o1, _, _, _⟩ := emitEvent_other g .ScrolledBottom .ScrolledTop s (by simp)
  have hc := emitEvent_const g .ScrolledBottom s
  obtain ⟨f2, _, _, _, _, _⟩ := emitEvent_fires g .ScrolledTop
    (emitEvent g .ScrolledBottom s) (by rw [o1]; exact hwt)
    (by rw [hc.2.1]; exact het)
  rw [f2, f1, List.append_assoc]
  rfl

/-- Claim C5 amended witness: at the both-near geometry (scrollTop 20,
scrollHeight 240, clientHeight 200, threshold 50) the pass emits Bottom then
Top. -/
theorem bottom_before_top_witness :
    (handleScroll ⟨20, 240, 200⟩ (initSys (some 50) none)).emitted =
      [Ev.ScrolledBottom, Ev.ScrolledTop] :=
  bottom_before_top (initSys (some 50) none) ⟨20, 240, 200⟩ (by decide)
    (by decide) rfl rfl (by decide) (by decide)

/-- Claim C6: a kind absent from handleEvents is never emitted: the attempted
raise is the identity on the whole state, and along any run the count of that
kind in the emitted trace never grows. -/
theorem disabled_kind_never_fires :
    (∀ (g : Geometry) (e : Ev) (s : SysState),
        s.watcher.handleEvents.contains e = false → emitEvent g e s = s) ∧
    (∀ (s s2 : SysState) (e : Ev) (acts : List Action),
        s.watcher.handleEvents.contains e = false →
        run s acts = some s2 →
        s2.emitted.count e = s.emitted.count e) :=
  ⟨fun g e s he => emitEvent_noop_disabled g e s he,
   fun s s2 e acts he hrun => run_count_disabled s s2 e acts he hrun⟩

/-- Claim C6 witness: with handleEvents = [ScrolledTop], a bottom-boundary
scroll leaves the raise a no-op and the run emits no ScrolledBottom. -/
theorem disabled_kind_never_fires_witness :
    emitEvent ⟨800, 1000, 200⟩ .ScrolledBottom
        (initSys (some 50) (some [.ScrolledTop])) =
      initSys (some 50) (some [.ScrolledTop]) ∧
    ((run (initSys (some 50) (some [.ScrolledTop]))
        [Action.scroll ⟨800, 1000, 200⟩]).getD
        (initSys (some 50) (some [.ScrolledTop]))).emitted.count
      .ScrolledBottom = 0 :=
  ⟨disabled_kind_never_fires.1 ⟨800, 1000, 200⟩ .ScrolledBottom
    (initSys (some 50) (some [.ScrolledTop])) rfl,
   disabled_kind_never_fires.2 (initSys (some 50) (some [.ScrolledTop])) _
    .ScrolledBottom [Action.scroll ⟨800, 1000, 200⟩] rfl rfl⟩

/-- Claim C7: delivery of a relevant end-insertion to the Bottom observer
clears the Bottom pending flag and nulls the observer handle, and performs no
write to the container scrollTop. -/
theorem bottom_mutation_no_scroll_write (s s2 : SysState) (dom : ContentDom)
    (m : MutationRecord) (rest : List MutationRecord) (i : Nat)
    (hobs : s.watcher.observerBottom = some i)
    (hrel : relevantFor .ScrolledBottom dom m = true)
    (hstep : step s (.mutate .ScrolledBottom dom (m :: rest)) = some s2) :
    s2.watcher.isWaitingBottom = false ∧
    s2.watcher.observerBottom = none ∧
    s2.containerScrollTop = s.containerScrollTop := by
  rw [step_mutate_some s .ScrolledBottom dom _ i hobs] at hstep
  rw [observerCallback_relevant .ScrolledBottom dom m rest s hrel] at hstep
  cases hstep
  obtain ⟨c1, c2⟩ := callbackResult_self .ScrolledBottom dom s
  exact ⟨c2, c1, callbackResult_scrollTop_bottom dom s⟩

/-- Claim C7 witness: after a Bottom raise, an append-insertion clears the
pending state and leaves scrollTop untouched. -/
theorem bottom_mutation_no_scroll_write_witness :
    ((step (emitEvent ⟨800, 1000, 200⟩ .ScrolledBottom (initSys none none))
        (.mutate .ScrolledBottom ⟨some 1, some 7, 1200⟩ [⟨[7]⟩])).getD
        (initSys none none)).watcher.isWaitingBottom = false ∧
    ((step (emitEvent ⟨800, 1000, 200⟩ .ScrolledBottom (initSys none none))
        (.mutate .ScrolledBottom ⟨some 1, some 7, 1200⟩ [⟨[7]⟩])).getD
        (initSys none none)).watcher.observerBottom = none ∧
    ((step (emitEvent ⟨800, 1000, 200⟩ .ScrolledBottom (initSys none none))
        (.mutate .ScrolledBottom ⟨some 1, some 7, 1200⟩ [⟨[7]⟩])).getD
        (initSys none none)).containerScrollTop = 0 :=
  bottom_mutation_no_scroll_write
    (emitEvent ⟨800, 1000, 200⟩ .ScrolledBottom (initSys none none)) _
    ⟨some 1, some 7, 1200⟩ ⟨[7]⟩ [] 0 rfl (by decide) rfl

/-- Claim C8: the observer callback inspects only the first record of a
delivered batch: the rest of the batch never changes the result, a batch whose
first record is irrelevant leaves the state unchanged (the kind stays pending),
and concretely a batch whose second record is a relevant start-insertion is
still ignored when its first record is irrelevant. -/
theorem only_first_record_inspected :
    (∀ (e : Ev) (dom : ContentDom) (m : MutationRecord)
        (rest rest2 : List MutationRecord) (s : SysState),
        observerCallback e dom (m :: rest) s =
          observerCallback e dom (m :: rest2) s) ∧
    (∀ (e : Ev) (dom : ContentDom) (m : MutationRecord)
        (rest : List MutationRecord) (s : SysState),
        relevantFor e dom m = false →
        observerCallback e dom (m :: rest) s = some s) ∧
    observerCallback .ScrolledTop ⟨some 5, some 9, 1200⟩ [⟨[7]⟩, ⟨[5]⟩]
        (emitEvent ⟨100, 1000, 200⟩ .ScrolledTop (initSys (some 100) none)) =
      some (emitEvent ⟨100, 1000, 200⟩ .ScrolledTop (initSys (some 100) none)) :=
  ⟨fun e dom m rest rest2 s => observerCallback_first e dom m rest rest2 s,
   fun e dom m rest s h => observerCallback_irrelevant e dom m rest s h,
   by decide⟩

/-- Claim C8 witness: the irrelevant-first-record clause at a concrete batch. -/
theorem only_first_record_inspected_witness :
    observerCallback .ScrolledBottom ⟨some 1, some 7, 1200⟩ [⟨[3]⟩]
        (initSys none none) = some (initSys none none) :=
  only_first_record_inspected.2.1 .ScrolledBottom ⟨some 1, some 7, 1200⟩
    ⟨[3]⟩ [] (initSys none none) (by decide)

/-- Claim C9: the constructor stores a negative threshold unvalidated, and with
a negative threshold neither isScrolledTop nor isScrolledBottom can be true on
any geometry with 0 ≤ scrollTop ≤ scrollHeight - clientHeight: the boundary is
unreachable. -/
theorem negative_threshold_unreachable (t : Int) (g : Geometry)
    (ht : t < 0) (h0 : 0 ≤ g.scrollTop)
    (h1 : g.scrollTop ≤ g.scrollHeight - g.clientHeight) :
    (initWatcher (some t) none).threshold = t ∧
    isScrolledTop g t = false ∧ isScrolledBottom g t = false := by
  refine ⟨rfl, ?_, ?_⟩
  · simp [isScrolledTop]; omega
  · simp [isScrolledBottom]; omega

/-- Claim C9 witness: threshold -5 at a mid-scroll geometry. -/
theorem negative_threshold_unreachable_witness :
    (initWatcher (some (-5)) none).threshold = -5 ∧
    isScrolledTop ⟨100, 1000, 200⟩ (-5) = false ∧
    isScrolledBottom ⟨100, 1000, 200⟩ (-5) = false :=
  negative_threshold_unreachable (-5) ⟨100, 1000, 200⟩ (by decide) (by decide)
    (by decide)

/-- Claim C10: a successful raise for one kind leaves the pending
flag of the other kind and observer handle unchanged, but overwrites the single shared snapshot
(previousScrollHeight, previousScrollTop) with the current geometry - the same
two fields for either kind, so a raise replaces the baseline a still-pending
kind would use for reconciliation. -/
theorem shared_snapshot_overwrite (g : Geometry) (e : Ev) (s : SysState)
    (hw : s.watcher.isWaiting e = false)
    (he : s.watcher.handleEvents.contains e = true) :
    (emitEvent g e s).watcher.isWaiting (otherKind e) =
      s.watcher.isWaiting (otherKind e) ∧
    (emitEvent g e s).watcher.observer (otherKind e) =
      s.watcher.observer (otherKind e) ∧
    (emitEvent g e s).watcher.previousScrollHeight = g.scrollHeight ∧
    (emitEvent g e s).watcher.previousScrollTop = g.scrollTop := by
  have hne : otherKind e ≠ e := by cases e <;> simp [otherKind]
  obtain ⟨o1, o2, _, _⟩ := emitEvent_other g e (otherKind e) s hne
  obtain ⟨_, _, _, _, f5, f6⟩ := emitEvent_fires g e s hw he
  exact ⟨o1, o2, f5, f6⟩

/-- Claim C10 witness: a Bottom raise while Top is idle keeps Top untouched and
sets the shared snapshot to the current geometry. -/
theorem shared_snapshot_overwrite_witness :
    (emitEvent ⟨800, 1000, 200⟩ .ScrolledBottom (initSys none none)).watcher.isWaiting
        (otherKind .ScrolledBottom) = false ∧
    (emitEvent ⟨800, 1000, 200⟩ .ScrolledBottom (initSys none none)).watcher.observer
        (otherKind .ScrolledBottom) = none ∧
    (emitEvent ⟨800, 1000, 200⟩ .ScrolledBottom
        (initSys none none)).watcher.previousScrollHeight = 1000 ∧
    (emitEvent ⟨800, 1000, 200⟩ .ScrolledBottom
        (initSys none none)).watcher.previousScrollTop = 800 :=
  shared_snapshot_overwrite ⟨800, 1000, 200⟩ .ScrolledBottom (initSys none none)
    rfl rfl

end InfiniteScroll
